import Mathlib

/-!
Verification development for the BoostIQ top-gainers / explosion-candidates
service.  The JavaScript sources are embedded shallowly:

* JavaScript numbers are modelled by `JNum`: an exact rational together with
  the three non-finite values `nan`, `inf` (positive infinity) and `ninf`
  (negative infinity).  The arithmetic and comparison operators below follow
  the ECMAScript semantics of `+`, `-`, `*`, `/`, `<`, `<=`, `===`,
  `Math.min` and `Math.max` on these values (the distinction between `0`
  and `-0` is collapsed, and the idealised arithmetic is exact rather than
  64-bit floating point).
* A ticker field that went through `parseFloat` is stored as a `JNum`;
  `parseFloat` of a missing field or of a non-numeric string is `nan`,
  and every real parse result is some rational.
* `x.toFixed(d)` followed by a later re-parse of the produced string is
  modelled by rounding to `d` decimal places (ties towards positive
  infinity, as specified for `Number.prototype.toFixed`); on `nan` / `inf`
  the produced strings re-parse to the same value.
-/

/-- Model of a JavaScript number: an exact rational, `NaN`, `Infinity`
or `-Infinity`. -/
inductive JNum where
  | nan : JNum
  | inf : JNum
  | ninf : JNum
  | num : ℚ → JNum
deriving DecidableEq

/-- JavaScript strict comparison `a < b` (`NaN` compares false). -/
def JNum.lt : JNum → JNum → Bool
  | .num a, .num b => decide (a < b)
  | .num _, .inf => true
  | .ninf, .num _ => true
  | .ninf, .inf => true
  | _, _ => false

/-- JavaScript comparison `a <= b` (`NaN` compares false). -/
def JNum.le : JNum → JNum → Bool
  | .num a, .num b => decide (a ≤ b)
  | .num _, .inf => true
  | .ninf, .num _ => true
  | .ninf, .inf => true
  | .ninf, .ninf => true
  | .inf, .inf => true
  | _, _ => false

/-- JavaScript strict equality `a === b` (`NaN === x` is false). -/
def JNum.steq : JNum → JNum → Bool
  | .num a, .num b => decide (a = b)
  | .inf, .inf => true
  | .ninf, .ninf => true
  | _, _ => false

/-- JavaScript addition. -/
def JNum.add : JNum → JNum → JNum
  | .num a, .num b => .num (a + b)
  | .nan, _ => .nan
  | _, .nan => .nan
  | .inf, .ninf => .nan
  | .ninf, .inf => .nan
  | .inf, _ => .inf
  | _, .inf => .inf
  | .ninf, _ => .ninf
  | _, .ninf => .ninf

/-- JavaScript negation. -/
def JNum.neg : JNum → JNum
  | .num a => .num (-a)
  | .nan => .nan
  | .inf => .ninf
  | .ninf => .inf

/-- JavaScript subtraction. -/
def JNum.sub (a b : JNum) : JNum := a.add b.neg

/-- JavaScript multiplication. -/
def JNum.mul : JNum → JNum → JNum
  | .num a, .num b => .num (a * b)
  | .nan, _ => .nan
  | _, .nan => .nan
  | .inf, .inf => .inf
  | .inf, .ninf => .ninf
  | .ninf, .inf => .ninf
  | .ninf, .ninf => .inf
  | .inf, .num b => if b = 0 then .nan else if 0 < b then .inf else .ninf
  | .num a, .inf => if a = 0 then .nan else if 0 < a then .inf else .ninf
  | .ninf, .num b => if b = 0 then .nan else if 0 < b then .ninf else .inf
  | .num a, .ninf => if a = 0 then .nan else if 0 < a then .ninf else .inf

/-- JavaScript division (division by the zero rational yields a signed
infinity, `0/0` yields `NaN`). -/
def JNum.div : JNum → JNum → JNum
  | .num a, .num b =>
      if b = 0 then (if a = 0 then .nan else if 0 < a then .inf else .ninf)
      else .num (a / b)
  | .nan, _ => .nan
  | _, .nan => .nan
  | .inf, .inf => .nan
  | .inf, .ninf => .nan
  | .ninf, .inf => .nan
  | .ninf, .ninf => .nan
  | .inf, .num b => if 0 ≤ b then .inf else .ninf
  | .ninf, .num b => if 0 ≤ b then .ninf else .inf
  | .num _, .inf => .num 0
  | .num _, .ninf => .num 0

/-- Model of `Math.min` for two arguments (`NaN` is absorbing). -/
def JNum.min : JNum → JNum → JNum
  | .nan, _ => .nan
  | _, .nan => .nan
  | .num a, .num b => .num (Min.min a b)
  | .ninf, _ => .ninf
  | _, .ninf => .ninf
  | .inf, b => b
  | a, .inf => a

/-- Model of `Math.max` for two arguments (`NaN` is absorbing). -/
def JNum.max : JNum → JNum → JNum
  | .nan, _ => .nan
  | _, .nan => .nan
  | .num a, .num b => .num (Max.max a b)
  | .inf, _ => .inf
  | _, .inf => .inf
  | .ninf, b => b
  | a, .ninf => a

/-- Model of the JavaScript `isNaN` test on an already parsed number. -/
def JNum.isNaN : JNum → Bool
  | .nan => true
  | _ => false

/-- Collapse a `JNum` to its rational value, sending the non-finite values
to `0`.  Used only where the surrounding code has already filtered out
`NaN` (junk value for the unreachable non-finite cases). -/
def JNum.toQ0 : JNum → ℚ
  | .num q => q
  | _ => 0

/-- Rounding of a rational to `d` decimal places, ties towards positive
infinity, as `Number.prototype.toFixed` specifies. -/
def qToFixed (d : ℕ) (q : ℚ) : ℚ := (⌊q * 10 ^ d + 1 / 2⌋ : ℚ) / 10 ^ d

/-- Model of `x.toFixed(d)` composed with the re-parse of the produced
string (`NaN.toFixed` gives "NaN", which re-parses to `NaN`, and
similarly for the infinities). -/
def JNum.toFixed (d : ℕ) : JNum → JNum
  | .num q => .num (qToFixed d q)
  | j => j

/-!
Scoring engine (`ExplosionDetector` in `src/index.js`, lines 138-236).
A `Ticker` holds the `parseFloat` image of the raw string fields of one
24-hour ticker record; arbitrary strings are covered because `parseFloat`
maps every string to a rational, `NaN`, or a signed infinity.
-/

/-- One raw 24h ticker as consumed by `ExplosionDetector`: the symbol and
the `parseFloat` images of `lastPrice`, `priceChangePercent` and
`quoteVolume`. -/
structure Ticker where
  symbol : String
  lastPrice : JNum
  priceChangePercent : JNum
  quoteVolume : JNum
deriving DecidableEq

/-- Price-gain staircase of `calculateExplosionScore` (step 1, 30 points
budget): `>20 → 30`, `>15 → 25`, `>10 → 20`, `>5 → 15`, `>0 → 10`,
else 0. -/
def priceGainScore (pc : JNum) : JNum :=
  if JNum.lt (.num 20) pc then .num 30
  else if JNum.lt (.num 15) pc then .num 25
  else if JNum.lt (.num 10) pc then .num 20
  else if JNum.lt (.num 5) pc then .num 15
  else if JNum.lt (.num 0) pc then .num 10
  else .num 0

/-- Volume staircase of `calculateExplosionScore` (step 2, 25 points
budget). -/
def volumeScoreOf (v : JNum) : JNum :=
  if JNum.lt (.num 50000000) v then .num 25
  else if JNum.lt (.num 20000000) v then .num 20
  else if JNum.lt (.num 10000000) v then .num 15
  else if JNum.lt (.num 5000000) v then .num 10
  else if JNum.lt (.num 1000000) v then .num 5
  else .num 0

/-- Momentum component of `calculateExplosionScore` (step 3):
`priceChange > 0 ? Math.min(20, priceChange) : 0`. -/
def momentumScoreOf (pc : JNum) : JNum :=
  if JNum.lt (.num 0) pc then JNum.min (.num 20) pc else .num 0

/-- Price-accessibility band of `calculateExplosionScore` (step 4, 15
points budget). -/
def accessibilityScore (price : JNum) : JNum :=
  if JNum.lt (.num (1 / 1000)) price && JNum.lt price (.num 10) then .num 15
  else if JNum.lt (.num (1 / 10000)) price && JNum.lt price (.num 50) then .num 10
  else if JNum.lt (.num (1 / 100000)) price && JNum.lt price (.num 100) then .num 5
  else .num 0

/-- Controlled-volatility bonus of `calculateExplosionScore` (step 5):
flat 10 when `0 < priceChangePercent < 100`. -/
def volatilityBonusOf (pc : JNum) : JNum :=
  if JNum.lt (.num 0) pc && JNum.lt pc (.num 100) then .num 10 else .num 0

/-- The accumulated `score` variable of `calculateExplosionScore` just
before the return: the sum of the five components. -/
def rawExplosionScore (t : Ticker) : JNum :=
  ((((priceGainScore t.priceChangePercent).add
      (volumeScoreOf t.quoteVolume)).add
      (momentumScoreOf t.priceChangePercent)).add
      (accessibilityScore t.lastPrice)).add
      (volatilityBonusOf t.priceChangePercent)

/-- The `analysis` breakdown record built by `calculateExplosionScore`.
Its `priceScore` field is `Math.min(30, Math.max(0, score))` evaluated
while `score` still holds only the price-gain component. -/
structure Breakdown where
  priceScore : JNum
  volumeScore : JNum
  momentumScore : JNum
  priceAccessibility : JNum
  volatilityBonus : JNum
deriving DecidableEq

/-- Recommendation tier of `getRecommendation`; the constructors stand for
the four action labels of the source (strong buy, moderate buy, watch,
avoid).  The constant confidence / risk / timeframe label strings of each
tier carry no logic and are not modelled. -/
inductive RecTier where
  | strongBuy : RecTier
  | moderateBuy : RecTier
  | watch : RecTier
  | avoid : RecTier
deriving DecidableEq

/-- Result record of `getRecommendation`: the tier plus the numeric
buy / sell-target / stop-loss levels (absent in the `avoid` tier; the
`toFixed(8)` string formatting of the targets is modelled by
`JNum.toFixed 8`). -/
structure Recommendation where
  tier : RecTier
  buyPrice : Option JNum
  sellTarget : Option JNum
  stopLoss : Option JNum
deriving DecidableEq

/-- Model of `ExplosionDetector.getRecommendation(score, token)`
(`src/index.js` lines 191-236).  Note that it receives the raw,
un-clamped score. -/
def getRecommendation (score : JNum) (token : Ticker) : Recommendation :=
  let price := token.lastPrice
  if JNum.le (.num 80) score then
    { tier := .strongBuy, buyPrice := some price
      sellTarget := some ((price.mul (.num (5 / 4))).toFixed 8)
      stopLoss := some ((price.mul (.num (17 / 20))).toFixed 8) }
  else if JNum.le (.num 60) score then
    { tier := .moderateBuy, buyPrice := some price
      sellTarget := some ((price.mul (.num (23 / 20))).toFixed 8)
      stopLoss := some ((price.mul (.num (9 / 10))).toFixed 8) }
  else if JNum.le (.num 40) score then
    { tier := .watch, buyPrice := some price
      sellTarget := some ((price.mul (.num (11 / 10))).toFixed 8)
      stopLoss := some ((price.mul (.num (19 / 20))).toFixed 8) }
  else
    { tier := .avoid, buyPrice := none, sellTarget := none, stopLoss := none }

/-- Result record of `calculateExplosionScore`. -/
structure ScoreResult where
  totalScore : JNum
  breakdown : Breakdown
  recommendation : Recommendation
deriving DecidableEq

/-- Model of `ExplosionDetector.calculateExplosionScore(token)`
(`src/index.js` lines 138-189): five additive components, the reported
`totalScore` clamped by `Math.min(100, score)`, and the recommendation
computed from the raw un-clamped `score`. -/
def calculateExplosionScore (t : Ticker) : ScoreResult :=
  { totalScore := JNum.min (.num 100) (rawExplosionScore t)
    breakdown :=
      { priceScore :=
          JNum.min (.num 30) (JNum.max (.num 0) (priceGainScore t.priceChangePercent))
        volumeScore := volumeScoreOf t.quoteVolume
        momentumScore := momentumScoreOf t.priceChangePercent
        priceAccessibility := accessibilityScore t.lastPrice
        volatilityBonus := volatilityBonusOf t.priceChangePercent }
    recommendation := getRecommendation (rawExplosionScore t) t }

/-!
Bounds for the five scoring components.  Together they show the
accumulated score is always a plain (finite, non-negative) number, at
most 100, whatever junk the three parsed fields hold.
-/

lemma priceGainScore_bound (pc : JNum) :
    ∃ q : ℚ, priceGainScore pc = .num q ∧ 0 ≤ q ∧ q ≤ 30 := by
  unfold priceGainScore
  split_ifs <;> exact ⟨_, rfl, by norm_num, by norm_num⟩

lemma volumeScoreOf_bound (v : JNum) :
    ∃ q : ℚ, volumeScoreOf v = .num q ∧ 0 ≤ q ∧ q ≤ 25 := by
  unfold volumeScoreOf
  split_ifs <;> exact ⟨_, rfl, by norm_num, by norm_num⟩

lemma momentumScoreOf_bound (pc : JNum) :
    ∃ q : ℚ, momentumScoreOf pc = .num q ∧ 0 ≤ q ∧ q ≤ 20 := by
  cases pc with
  | nan => exact ⟨0, rfl, by norm_num, by norm_num⟩
  | inf => exact ⟨20, rfl, by norm_num, by norm_num⟩
  | ninf => exact ⟨0, rfl, by norm_num, by norm_num⟩
  | num q =>
      by_cases h : (0 : ℚ) < q
      · refine ⟨Min.min 20 q, ?_, le_min (by norm_num) h.le, min_le_left _ _⟩
        simp [momentumScoreOf, JNum.lt, h, JNum.min]
      · refine ⟨0, ?_, le_refl 0, by norm_num⟩
        simp [momentumScoreOf, JNum.lt, h]

lemma accessibilityScore_bound (price : JNum) :
    ∃ q : ℚ, accessibilityScore price = .num q ∧ 0 ≤ q ∧ q ≤ 15 := by
  unfold accessibilityScore
  split_ifs <;> exact ⟨_, rfl, by norm_num, by norm_num⟩

lemma volatilityBonusOf_bound (pc : JNum) :
    ∃ q : ℚ, volatilityBonusOf pc = .num q ∧ 0 ≤ q ∧ q ≤ 10 := by
  unfold volatilityBonusOf
  split_ifs <;> exact ⟨_, rfl, by norm_num, by norm_num⟩

lemma rawExplosionScore_bound (t : Ticker) :
    ∃ q : ℚ, rawExplosionScore t = .num q ∧ 0 ≤ q ∧ q ≤ 100 := by
  obtain ⟨a, ha, ha0, ha1⟩ := priceGainScore_bound t.priceChangePercent
  obtain ⟨b, hb, hb0, hb1⟩ := volumeScoreOf_bound t.quoteVolume
  obtain ⟨c, hc, hc0, hc1⟩ := momentumScoreOf_bound t.priceChangePercent
  obtain ⟨d, hd, hd0, hd1⟩ := accessibilityScore_bound t.lastPrice
  obtain ⟨e, he, he0, he1⟩ := volatilityBonusOf_bound t.priceChangePercent
  refine ⟨a + b + c + d + e, ?_, by linarith, by linarith⟩
  simp [rawExplosionScore, ha, hb, hc, hd, he, JNum.add]

/-- C1: for every input ticker record — arbitrary, including negative,
extreme, or non-numeric string field values — the reported `totalScore`
is a plain number `q` with `0 ≤ q ≤ 100`: every component sub-score is
non-negative and the sum is clamped at 100 by `Math.min`. -/
theorem c1_totalScore_bounded (t : Ticker) :
    ∃ q : ℚ, (calculateExplosionScore t).totalScore = .num q ∧ 0 ≤ q ∧ q ≤ 100 := by
  obtain ⟨s, hs, h0, h1⟩ := rawExplosionScore_bound t
  refine ⟨Min.min 100 s, ?_, le_min (by norm_num) h0, min_le_left _ _⟩
  simp [calculateExplosionScore, hs, JNum.min]

/-- Tier table of the specification, applied to a (clamped) score value:
at least 80 is strong-buy, at least 60 moderate-buy, at least 40 watch,
anything below is avoid. -/
def specTier (s : JNum) : RecTier :=
  if JNum.le (.num 80) s then .strongBuy
  else if JNum.le (.num 60) s then .moderateBuy
  else if JNum.le (.num 40) s then .watch
  else .avoid

/-- C10: although `getRecommendation` receives the raw un-clamped score
while the reported `totalScore` is `Math.min(100, score)`, the produced
tier — and the presence of the buy / sell / stop targets — always agrees
with the tier the clamped `totalScore` falls in, because the raw score
never exceeds 100 (so clamping cannot cross the 80/60/40 thresholds). -/
theorem c10_recommendation_matches_clamped_tier (t : Ticker) :
    (calculateExplosionScore t).recommendation.tier
        = specTier (calculateExplosionScore t).totalScore
      ∧ ((calculateExplosionScore t).recommendation.sellTarget.isSome
        ↔ specTier (calculateExplosionScore t).totalScore ≠ .avoid) := by
  obtain ⟨s, hs, h0, h1⟩ := rawExplosionScore_bound t
  have hclamp : (calculateExplosionScore t).totalScore = .num s := by
    simp [calculateExplosionScore, hs, JNum.min, min_eq_right h1]
  have hrec : (calculateExplosionScore t).recommendation
      = getRecommendation (.num s) t := by
    simp [calculateExplosionScore, hs]
  rw [hclamp, hrec]
  simp only [getRecommendation, specTier]
  split_ifs <;> simp

/-- The example ticker of the specification. -/
def tickerFOO : Ticker :=
  { symbol := "FOOUSDT", lastPrice := .num 2
    priceChangePercent := .num 22, quoteVolume := .num 60000000 }

/-- C9: the ticker `{symbol:"FOOUSDT", lastPrice:"2.0",
priceChangePercent:"22", quoteVolume:"60000000"}` scores price-gain 30,
volume 25, momentum 20, accessibility 15, volatility bonus 10, a clamped
`totalScore` of 100, and the strong-buy recommendation tier. -/
theorem c9_example_ticker_scores :
    (calculateExplosionScore tickerFOO).breakdown.priceScore = .num 30
      ∧ (calculateExplosionScore tickerFOO).breakdown.volumeScore = .num 25
      ∧ (calculateExplosionScore tickerFOO).breakdown.momentumScore = .num 20
      ∧ (calculateExplosionScore tickerFOO).breakdown.priceAccessibility = .num 15
      ∧ (calculateExplosionScore tickerFOO).breakdown.volatilityBonus = .num 10
      ∧ (calculateExplosionScore tickerFOO).totalScore = .num 100
      ∧ (calculateExplosionScore tickerFOO).recommendation.tier = .strongBuy := by
  norm_num [calculateExplosionScore, rawExplosionScore, tickerFOO,
    priceGainScore, volumeScoreOf, momentumScoreOf, accessibilityScore,
    volatilityBonusOf, getRecommendation, JNum.lt, JNum.le, JNum.add,
    JNum.min, JNum.max]

/-!
Indicator library.  `TechnicalAnalysis.calculateRSI` (`src/index.js`
lines 54-73) loops `i = 1 .. period` over `prices[i] - prices[i-1]`;
an index past the end of the array reads `undefined`, and arithmetic on
`undefined` is `NaN`.  The loop is rendered structurally: the auxiliary
walks the list producing `n` consecutive differences, emitting `NaN`
differences once the list is exhausted.
-/

/-- Consecutive differences `prices[j+1] - prices[j]`, `n` of them;
differences that read past the end of the list are `NaN`. -/
def rsiChangesAux : List ℚ → ℕ → List JNum
  | _, 0 => []
  | [], n + 1 => JNum.sub .nan .nan :: rsiChangesAux [] n
  | [p], n + 1 => JNum.sub .nan (.num p) :: rsiChangesAux [] n
  | p :: q :: r, n + 1 => JNum.sub (.num q) (.num p) :: rsiChangesAux (q :: r) n

/-- The `period` change values examined by `calculateRSI`
(`prices[i] - prices[i-1]` for `i = 1 .. period`). -/
def rsiChanges (prices : List ℚ) (period : ℕ) : List JNum :=
  rsiChangesAux prices period

/-- The accumulated `gains` variable of `calculateRSI`. -/
def rsiGains (prices : List ℚ) (period : ℕ) : JNum :=
  (rsiChanges prices period).foldl
    (fun g c => if JNum.lt (.num 0) c then g.add c else g) (.num 0)

/-- The accumulated `losses` variable of `calculateRSI`
(`losses -= change` whenever the change is not positive). -/
def rsiLosses (prices : List ℚ) (period : ℕ) : JNum :=
  (rsiChanges prices period).foldl
    (fun l c => if JNum.lt (.num 0) c then l else l.sub c) (.num 0)

/-- Model of `TechnicalAnalysis.calculateRSI(prices, period)`: neutral 50
below `period` samples, 100 when the average loss is (strictly) equal to
zero, otherwise `100 - 100 / (1 + avgGain / avgLoss)`. -/
def calculateRSI (prices : List ℚ) (period : ℕ) : JNum :=
  if prices.length < period then .num 50
  else
    let avgGain := (rsiGains prices period).div (.num (period : ℚ))
    let avgLoss := (rsiLosses prices period).div (.num (period : ℚ))
    if JNum.steq avgLoss (.num 0) then .num 100
    else JNum.sub (.num 100) ((JNum.num 100).div ((JNum.num 1).add (avgGain.div avgLoss)))

/-- Period-over-period returns `(prices[i] - prices[i-1]) / prices[i-1]`
of `TechnicalAnalysis.calculateVolatility` (`src/index.js` lines 75-87).
All reads are in bounds; the rational division-by-zero convention
(`x / 0 = 0`) stands in for the unreachable degenerate case of a zero
price, on both the code side and the specification side below. -/
def volReturns : List ℚ → List ℚ
  | [] => []
  | [_] => []
  | p :: q :: r => (q - p) / p :: volReturns (q :: r)

/-- The `mean` of the returns in `calculateVolatility`. -/
def volMean (prices : List ℚ) : ℚ :=
  (volReturns prices).foldl (fun a b => a + b) 0 / (volReturns prices).length

/-- The `variance` of the returns in `calculateVolatility`: mean of the
squared deviations from the mean (the accumulating `reduce`). -/
def volVariance (prices : List ℚ) : ℚ :=
  ((volReturns prices).foldl (fun a b => a + (b - volMean prices) ^ 2) 0)
    / (volReturns prices).length

/-- Model of `TechnicalAnalysis.calculateVolatility(prices)`: 0 below two
samples, else `Math.sqrt(variance) * 100`. -/
noncomputable def calculateVolatility (prices : List ℚ) : ℝ :=
  if prices.length < 2 then 0 else Real.sqrt (volVariance prices) * 100

/-- Standard deviation of a sample, following the words of the
specification: the square root of the mean squared deviation of the
values from their mean. -/
noncomputable def sampleStdDev (xs : List ℚ) : ℝ :=
  Real.sqrt (((xs.map (fun x => (x - xs.sum / xs.length) ^ 2)).sum / xs.length : ℚ))

lemma foldl_add_map (f : ℚ → ℚ) (l : List ℚ) (c : ℚ) :
    l.foldl (fun a b => a + f b) c = c + (l.map f).sum := by
  induction l generalizing c with
  | nil => simp
  | cons h t ih => simp [ih]; ring

lemma foldl_add_eq_sum (l : List ℚ) (c : ℚ) :
    l.foldl (fun a b => a + b) c = c + l.sum := by
  induction l generalizing c with
  | nil => simp
  | cons h t ih => simp [ih]; ring

lemma volMean_eq (prices : List ℚ) :
    volMean prices = (volReturns prices).sum / (volReturns prices).length := by
  unfold volMean
  rw [foldl_add_eq_sum]
  ring_nf

lemma volVariance_eq (prices : List ℚ) :
    volVariance prices
      = ((volReturns prices).map
          (fun x => (x - (volReturns prices).sum / (volReturns prices).length) ^ 2)).sum
        / (volReturns prices).length := by
  unfold volVariance
  rw [foldl_add_map (fun b => (b - volMean prices) ^ 2), volMean_eq, zero_add]

/-- C6: `calculateVolatility` returns 0 for fewer than two samples, and
otherwise exactly the standard deviation of the sample of
period-over-period returns multiplied by 100. -/
theorem c6_volatility_is_stddev_of_returns (prices : List ℚ) :
    (prices.length < 2 → calculateVolatility prices = 0)
      ∧ (2 ≤ prices.length →
        calculateVolatility prices = sampleStdDev (volReturns prices) * 100) := by
  constructor
  · intro h
    simp [calculateVolatility, h]
  · intro h
    rw [calculateVolatility, if_neg (by omega), sampleStdDev, volVariance_eq]

/-- Witness for C6 at the two-sample list `[1, 2]`. -/
theorem c6_volatility_is_stddev_of_returns_witness :
    2 ≤ ([1, 2] : List ℚ).length
      ∧ calculateVolatility [1, 2] = sampleStdDev (volReturns [1, 2]) * 100 :=
  ⟨by norm_num, (c6_volatility_is_stddev_of_returns [1, 2]).2 (by norm_num)⟩

/-!
Simplified RSI of the second service (`calculateSimpleRSI`,
`src/index.js` lines 601-625): changes over the whole list (all reads in
bounds), gain / loss series, averages of the last 14 entries.
-/

/-- Consecutive differences `prices[i] - prices[i-1]` over the whole
list. -/
def simpleChanges : List ℚ → List ℚ
  | [] => []
  | [_] => []
  | p :: q :: r => (q - p) :: simpleChanges (q :: r)

/-- The `gains` series of `calculateSimpleRSI`: the positive changes,
zero elsewhere. -/
def simpleGains (prices : List ℚ) : List ℚ :=
  (simpleChanges prices).map (fun c => if 0 < c then c else 0)

/-- The `losses` series of `calculateSimpleRSI`: absolute values of the
non-positive changes, zero elsewhere. -/
def simpleLosses (prices : List ℚ) : List ℚ :=
  (simpleChanges prices).map (fun c => if 0 < c then 0 else |c|)

/-- Average gain over the last 14 entries (`gains.slice(-14)`), divided
by 14. -/
def simpleAvgGain (prices : List ℚ) : ℚ :=
  (((simpleGains prices).drop ((simpleGains prices).length - 14)).foldl
    (fun a b => a + b) 0) / 14

/-- Average loss over the last 14 entries (`losses.slice(-14)`), divided
by 14. -/
def simpleAvgLoss (prices : List ℚ) : ℚ :=
  (((simpleLosses prices).drop ((simpleLosses prices).length - 14)).foldl
    (fun a b => a + b) 0) / 14

/-- Model of `calculateSimpleRSI(prices)`: neutral 50 below 14 samples,
100 when the average loss is zero, else `100 - 100 / (1 + rs)`. -/
def calculateSimpleRSI (prices : List ℚ) : ℚ :=
  if prices.length < 14 then 50
  else if simpleAvgLoss prices = 0 then 100
  else 100 - 100 / (1 + simpleAvgGain prices / simpleAvgLoss prices)

/-- C5: both RSI implementations return exactly the neutral value 50 when
fewer than 14 samples are supplied, and exactly 100 — with no division by
zero — whenever the accumulated losses over the examined window are zero
and the length guard admits the list. -/
theorem c5_rsi_neutral_and_loss_free_values :
    (∀ prices : List ℚ, prices.length < 14 →
        calculateRSI prices 14 = .num 50 ∧ calculateSimpleRSI prices = 50)
      ∧ (∀ prices : List ℚ, 14 ≤ prices.length →
        rsiLosses prices 14 = .num 0 → calculateRSI prices 14 = .num 100)
      ∧ (∀ prices : List ℚ, 14 ≤ prices.length →
        simpleAvgLoss prices = 0 → calculateSimpleRSI prices = 100) := by
  refine ⟨fun prices h => ⟨?_, ?_⟩, fun prices h hl => ?_, fun prices h hl => ?_⟩
  · simp [calculateRSI, h]
  · simp [calculateSimpleRSI, h]
  · rw [calculateRSI]
    rw [if_neg (by omega)]
    norm_num [hl, JNum.div, JNum.steq]
  · rw [calculateSimpleRSI, if_neg (by omega), if_pos hl]

/-- Witness for C5 on a strictly increasing 15-sample list (losses 0)
and on a short list. -/
theorem c5_rsi_neutral_and_loss_free_values_witness :
    (([0, 1] : List ℚ).length < 14
        ∧ calculateRSI [0, 1] 14 = .num 50 ∧ calculateSimpleRSI [0, 1] = 50)
      ∧ (14 ≤ ([0, 1, 2, 3, 4, 5, 6, 7, 8, 9, 10, 11, 12, 13, 14] : List ℚ).length
        ∧ rsiLosses [0, 1, 2, 3, 4, 5, 6, 7, 8, 9, 10, 11, 12, 13, 14] 14 = .num 0
        ∧ calculateRSI [0, 1, 2, 3, 4, 5, 6, 7, 8, 9, 10, 11, 12, 13, 14] 14 = .num 100) :=
  ⟨⟨by norm_num,
      c5_rsi_neutral_and_loss_free_values.1 [0, 1] (by norm_num)⟩,
    by norm_num,
    by norm_num [rsiLosses, rsiChanges, rsiChangesAux, JNum.lt, JNum.sub,
      JNum.add, JNum.neg],
    c5_rsi_neutral_and_loss_free_values.2.1
      [0, 1, 2, 3, 4, 5, 6, 7, 8, 9, 10, 11, 12, 13, 14] (by norm_num)
      (by norm_num [rsiLosses, rsiChanges, rsiChangesAux, JNum.lt, JNum.sub,
        JNum.add, JNum.neg])⟩

/-- C7 evaluation: at exactly 14 samples the length guard admits the
list, but the loop reads `prices[14]`, one past the end; the `NaN`
propagates and `calculateRSI` returns `NaN` instead of a number in
`[0, 100]`. -/
theorem c7_rsi_reads_past_end_at_14_samples :
    calculateRSI [1, 1, 1, 1, 1, 1, 1, 1, 1, 1, 1, 1, 1, 1] 14 = .nan := by
  norm_num [calculateRSI, rsiGains, rsiLosses, rsiChanges, rsiChangesAux,
    JNum.lt, JNum.sub, JNum.add, JNum.neg, JNum.div, JNum.steq]

/-!
Filter / rank pipeline of the standalone top-gainers service
(`src/unnamed/part_000`).  A raw upstream item is a record whose fields may be
missing (`undefined` / `null`, modelled `none`); a present field holds
the `parseFloat` image of its string value.  A `null` or non-object array
entry behaves exactly like a record with every field absent, so array
entries are modelled as records directly.
-/

/-- One untyped element of the upstream ticker array. -/
structure RawItem where
  symbol : Option String
  lastPrice : Option JNum
  priceChangePercent : Option JNum
  quoteVolume : Option JNum
  priceChange : Option JNum
deriving DecidableEq

/-- Value of `parseFloat(field)`: `NaN` on a missing field. -/
def parseField : Option JNum → JNum
  | some j => j
  | none => .nan

/-- Model of `validateBinanceData(item)` (`part_000` lines 45-50): all
four required fields present and non-null. -/
def validateBinanceData (i : RawItem) : Bool :=
  i.symbol.isSome && i.lastPrice.isSome && i.priceChangePercent.isSome
    && i.quoteVolume.isSome

/-- Model of the JavaScript `String.prototype.endsWith` test used by
`item.symbol?.endsWith("USDT")`; an absent symbol is falsy. -/
def symbolIsUsdt (i : RawItem) : Bool :=
  match i.symbol with
  | some s => "USDT".data.isSuffixOf s.data
  | none => false

/-- Volume predicate of `processGainersData` (`part_000` lines 61-64):
the parsed `quoteVolume` is a number above `MIN_VOLUME = 50000`. -/
def gainersVolumeKeep (i : RawItem) : Bool :=
  !(parseField i.quoteVolume).isNaN && JNum.lt (.num 50000) (parseField i.quoteVolume)

/-- Output record of `processGainersData` (the `toFixed` strings are
modelled by their re-parsed rounded values). -/
structure OutRec where
  symbol : String
  price : JNum
  percentChange : JNum
  volume : JNum
  priceChange : JNum
deriving DecidableEq

/-- The mapping step of `processGainersData` (`part_000` lines 65-77). -/
def toOutRec (i : RawItem) : OutRec :=
  { symbol := i.symbol.getD ""
    price := (parseField i.lastPrice).toFixed 8
    percentChange := (parseField i.priceChangePercent).toFixed 2
    volume := (parseField i.quoteVolume).toFixed 2
    priceChange := (parseField i.priceChange).toFixed 8 }

/-- Percent-gain predicate of `processGainersData` (lines 78-81): the
re-parsed `percentChange` is a number above `MIN_GAIN_PERCENT = 5`. -/
def gainersPctKeep (o : OutRec) : Bool :=
  !o.percentChange.isNaN && JNum.lt (.num 5) o.percentChange

/-- Comparator ordering of the final `.sort` of `processGainersData`:
record `a` may stay before `b` unless the comparator
`parseFloat(b.percentChange) - parseFloat(a.percentChange)` is positive
(a stable sort moves an element only on a positive comparator value). -/
def outRecBefore (a b : OutRec) : Prop :=
  JNum.lt (.num 0) (JNum.sub b.percentChange a.percentChange) = false

instance : DecidableRel outRecBefore := fun a b => by
  unfold outRecBefore; infer_instance

/-- Upstream payload as seen by the pipeline: either a well-formed array
or some non-array JSON value. -/
inductive BinanceResponse where
  | arr : List RawItem → BinanceResponse
  | notArray : BinanceResponse
deriving DecidableEq

/-- Body of `processGainersData` on a well-formed array: validate rows,
keep USDT pairs above the volume floor, shape the output record, keep
rows above the gain floor, sort by percent gain descending and truncate
to `TOP_COUNT = 10`. -/
def processGainersList (data : List RawItem) : List OutRec :=
  ((((((data.filter validateBinanceData).filter symbolIsUsdt).filter
      gainersVolumeKeep).map toOutRec).filter gainersPctKeep).insertionSort
      outRecBefore).take 10

/-- Model of `processGainersData(data)` (`part_000` lines 53-84): a
non-array input throws (`Except.error`), a well-formed array is filtered
row by row. -/
def processGainersData : BinanceResponse → Except String (List OutRec)
  | .notArray => .error "Invalid data format from Binance API"
  | .arr data => .ok (processGainersList data)

/-!
Freshness cache of the standalone top-gainers service: the module-level
`cache` / `lastFetch` variables and the `GET /api/top-gainers` handler
(`part_000` lines 87-161).  The handler is modelled as a state machine:
given the current state, the current clock value (milliseconds) and the
outcome the upstream fetch would have, it produces the response, the next
state and whether the upstream fetch was actually performed.  The same
guard / store / fail discipline instantiates per cache key for the
explicit-flag handlers of the second service (`src/index.js` lines
791-834, 837-880, 883-922), which differ only in TTL and pipeline.
-/

/-- The module-level cache state: `cache` (null initially) and
`lastFetch`. -/
structure GainersState where
  cache : Option (List OutRec)
  lastFetch : ℤ
deriving DecidableEq

/-- Failure modes of the upstream `axios.get`, as discriminated by the
handler's catch block. -/
inductive FetchErr where
  | timeout : FetchErr
  | apiError : ℕ → FetchErr
  | network : FetchErr
deriving DecidableEq

/-- HTTP status the catch block surfaces for each fetch failure mode:
408 for `ECONNABORTED`, the upstream status for `error.response`, 503
for `error.request`. -/
def fetchStatus : FetchErr → ℕ
  | .timeout => 408
  | .apiError s => s
  | .network => 503

/-- Response of the handler: a success body carries the payload, the
`cached` flag and the timestamp it reports (`lastFetch` when served from
cache, the current clock on a fresh computation); a failure carries the
HTTP status. -/
inductive GainersResp where
  | ok : List OutRec → Bool → ℤ → GainersResp
  | fail : ℕ → GainersResp
deriving DecidableEq

/-- Cache-hit guard of the handler:
`cache && (now - lastFetch) < CACHE_DURATION` with
`CACHE_DURATION = 60000` (a stored payload array is always truthy). -/
def gainersHit (st : GainersState) (now : ℤ) : Prop :=
  st.cache.isSome = true ∧ now - st.lastFetch < 60000

instance : ∀ st now, Decidable (gainersHit st now) := fun st now => by
  unfold gainersHit; infer_instance

/-- Miss path of the `GET /api/top-gainers` handler: fetch, process,
store on success; on any failure leave the state alone and surface the
catch block's status. -/
def handleTopGainersMiss (st : GainersState) (now : ℤ) :
    Except FetchErr BinanceResponse → GainersResp × GainersState × Bool
  | .error e => (.fail (fetchStatus e), st, true)
  | .ok data =>
      match processGainersData data with
      | .error _ => (.fail 500, st, true)
      | .ok gainers => (.ok gainers false now, ⟨some gainers, now⟩, true)

/-- Model of the `GET /api/top-gainers` handler (`part_000` lines
87-161).  Output: response, next state, and whether an upstream fetch was
performed. -/
def handleTopGainers (st : GainersState) (now : ℤ)
    (fetch : Except FetchErr BinanceResponse) :
    GainersResp × GainersState × Bool :=
  if gainersHit st now then
    (.ok (st.cache.getD []) true st.lastFetch, st, false)
  else
    handleTopGainersMiss st now fetch

/-- C2: a `GetOrCompute` miss at time `t1` that successfully computes a
payload stores it with `computedAt = t1`; a second call at any `t2` with
`t2 - t1 < TTL` returns the identical payload with `cached = true` and
performs no second upstream fetch (its would-be fetch outcome `f2` is
irrelevant).  Moreover a lookup is served from cache exactly when an
entry exists and `now - lastFetch < TTL`. -/
theorem c2_cache_hit_within_ttl :
    (∀ (st0 : GainersState) (t1 t2 : ℤ) (d : BinanceResponse)
        (g : List OutRec) (f2 : Except FetchErr BinanceResponse),
      ¬ gainersHit st0 t1 → processGainersData d = .ok g → t2 - t1 < 60000 →
        handleTopGainers st0 t1 (.ok d) = (.ok g false t1, ⟨some g, t1⟩, true)
          ∧ handleTopGainers ⟨some g, t1⟩ t2 f2 = (.ok g true t1, ⟨some g, t1⟩, false))
      ∧ (∀ (st : GainersState) (now : ℤ) (f : Except FetchErr BinanceResponse),
        (handleTopGainers st now f).2.2 = false ↔ gainersHit st now) := by
  constructor
  · intro st0 t1 t2 d g f2 hmiss hok httl
    constructor
    · rw [handleTopGainers, if_neg hmiss, handleTopGainersMiss, hok]
    · rw [handleTopGainers, if_pos ⟨rfl, httl⟩]
      rfl
  · intro st now f
    rw [handleTopGainers]
    split_ifs with h
    · simpa using h
    · simp only [h, iff_false]
      rcases f with e | data
      · simp [handleTopGainersMiss]
      · rw [handleTopGainersMiss]
        rcases hp : processGainersData data with e | g <;> simp

/-- Witness for C2: a miss at time 1000 on the empty upstream array,
then a hit at time 2000 whose would-be fetch outcome is an error and is
never consulted. -/
theorem c2_cache_hit_within_ttl_witness :
    (¬ gainersHit ⟨none, 0⟩ 1000)
      ∧ processGainersData (.arr []) = .ok []
      ∧ ((2000 : ℤ) - 1000 < 60000)
      ∧ (handleTopGainers ⟨none, 0⟩ 1000 (.ok (.arr []))
            = (.ok [] false 1000, ⟨some [], 1000⟩, true)
        ∧ handleTopGainers ⟨some [], 1000⟩ 2000 (.error .network)
            = (.ok [] true 1000, ⟨some [], 1000⟩, false)) :=
  ⟨by decide, rfl, by decide,
    c2_cache_hit_within_ttl.1 ⟨none, 0⟩ 1000 2000 (.arr []) [] (.error .network)
      (by decide) rfl (by decide)⟩

/-!
The NodeCache-based service (`src/index.js`, first application).
`getBinanceData` (lines 240-276) swallows every upstream failure: a
failed primary fetch falls back to a second fetch, and a failed fallback
returns the empty array.  The `GET /api/explosion-candidates` handler
(lines 310-346) therefore never sees the failure: it scores the empty
array, stores the empty payload in the cache (`stdTTL` 30 seconds) and
responds with success.
-/

/-- Primary filter of `getBinanceData`: USDT suffix, `quoteVolume`
above `EXPLOSION_MIN_VOLUME = 1000000`, `lastPrice` strictly between
`MIN_PRICE = 0.000001` and `MAX_PRICE = 100`. -/
def getBinanceDataFiltered (d : List Ticker) : List Ticker :=
  d.filter (fun t =>
    ("USDT".data.isSuffixOf t.symbol.data)
      && JNum.lt (.num 1000000) t.quoteVolume
      && JNum.lt (.num (1 / 1000000)) t.lastPrice
      && JNum.lt t.lastPrice (.num 100))

/-- Fallback filter of `getBinanceData` (no price band). -/
def getBinanceDataFallback (d : List Ticker) : List Ticker :=
  d.filter (fun t =>
    ("USDT".data.isSuffixOf t.symbol.data)
      && JNum.lt (.num 1000000) t.quoteVolume)

/-- Model of `getBinanceData()` (`src/index.js` lines 240-276), taking
the outcomes the primary and fallback fetches would have: it catches
every error and returns the empty array when both fetches fail. -/
def getBinanceData (primary fb : Except Unit (List Ticker)) : List Ticker :=
  match primary with
  | .ok d => getBinanceDataFiltered d
  | .error _ =>
      match fb with
      | .ok d => getBinanceDataFallback d
      | .error _ => []

/-- One entry of the `/api/explosion-candidates` response body (the
constant timestamp string is not modelled). -/
structure Candidate where
  symbol : String
  price : JNum
  priceChangePercent : JNum
  volume : JNum
  explosionScore : JNum
  breakdown : Breakdown
  recommendation : Recommendation
deriving DecidableEq

/-- The mapping step of the explosion-candidates handler. -/
def mkCandidate (t : Ticker) : Candidate :=
  { symbol := t.symbol
    price := t.lastPrice
    priceChangePercent := t.priceChangePercent
    volume := t.quoteVolume
    explosionScore := (calculateExplosionScore t).totalScore
    breakdown := (calculateExplosionScore t).breakdown
    recommendation := (calculateExplosionScore t).recommendation }

/-- Comparator ordering of the handler's `.sort`: candidate `a` may stay
before `b` unless `b.explosionScore - a.explosionScore` is positive. -/
def candBefore (a b : Candidate) : Prop :=
  JNum.lt (.num 0) (JNum.sub b.explosionScore a.explosionScore) = false

instance : DecidableRel candBefore := fun a b => by
  unfold candBefore; infer_instance

/-- Filter, score, sort and truncate of the explosion-candidates handler
(`src/index.js` lines 321-337): gain above `EXPLOSION_MIN_GAIN = 8`,
sorted by explosion score descending, top 5. -/
def explosionCandidatesOf (bd : List Ticker) : List Candidate :=
  (((bd.filter (fun t => JNum.lt (.num 8) t.priceChangePercent)).map
      mkCandidate).insertionSort candBefore).take 5

/-- NodeCache state for the `explosion-candidates` key: the stored
payload with its storage time (`stdTTL` 30 seconds; an expired entry is
not returned by `get`). -/
structure NCacheState where
  entry : Option (List Candidate × ℤ)
deriving DecidableEq

/-- Model of `cache.get(key)` at clock `now` (milliseconds). -/
def ncGet (st : NCacheState) (now : ℤ) : Option (List Candidate) :=
  match st.entry with
  | some (p, t) => if now - t < 30000 then some p else none
  | none => none

/-- Response of the explosion-candidates handler. -/
inductive ExplResp where
  | ok : List Candidate → ExplResp
  | fail : ℕ → ExplResp
deriving DecidableEq

/-- Model of the `GET /api/explosion-candidates` handler (`src/index.js`
lines 310-346): serve the cache on a hit; otherwise run
`getBinanceData` (which never throws), score, sort, truncate, store the
payload and respond with it. -/
def handleExplosionCandidates (st : NCacheState) (now : ℤ)
    (primary fb : Except Unit (List Ticker)) : ExplResp × NCacheState :=
  match ncGet st now with
  | some d => (.ok d, st)
  | none =>
      let cands := explosionCandidatesOf (getBinanceData primary fb)
      (.ok cands, ⟨some (cands, now)⟩)

/-- Counterexample to C3: in the NodeCache service, a total upstream
failure (primary and fallback fetches both fail) at a key with no prior
entry is not surfaced as an upstream-unavailable condition — the handler
returns a fabricated empty result with success, and it does not leave the
cache entry unchanged: it stores the poisoned empty payload. -/
theorem c3_counterexample_failure_fabricates_and_poisons :
    handleExplosionCandidates ⟨none⟩ 0 (.error ()) (.error ())
        = (.ok [], ⟨some ([], 0)⟩)
      ∧ (⟨some ([], 0)⟩ : NCacheState) ≠ ⟨none⟩ :=
  ⟨rfl, by decide⟩

/-- C3 as amended: in the standalone top-gainers service a failing
upstream compute — a fetch error of any kind, or a malformed (non-array)
payload — leaves the cache state unchanged (a prior entry, even stale,
stays stored) and surfaces an error status to the caller; no fabricated
payload is produced and nothing is written to the cache.  (In the
NodeCache service, by contrast, `getBinanceData` converts total upstream
failure into an empty array — the counterexample above.) -/
theorem c3_amended_failure_leaves_cache_and_surfaces
    (st : GainersState) (now : ℤ) (h : ¬ gainersHit st now) :
    (∀ e : FetchErr,
        handleTopGainers st now (.error e) = (.fail (fetchStatus e), st, true))
      ∧ handleTopGainers st now (.ok .notArray) = (.fail 500, st, true) := by
  constructor
  · intro e
    rw [handleTopGainers, if_neg h, handleTopGainersMiss]
  · rw [handleTopGainers, if_neg h, handleTopGainersMiss]
    rfl

/-- Witness for C3 (amended) at a state holding a stale entry: the stale
payload stays stored and the timeout is surfaced as 408. -/
theorem c3_amended_failure_leaves_cache_and_surfaces_witness :
    (¬ gainersHit ⟨some [], 0⟩ 100000)
      ∧ handleTopGainers ⟨some [], 0⟩ 100000 (.error .timeout)
          = (.fail 408, ⟨some [], 0⟩, true) :=
  ⟨by decide,
    (c3_amended_failure_leaves_cache_and_surfaces ⟨some [], 0⟩ 100000
      (by decide)).1 .timeout⟩

/-!
Analysis pipeline of the second service (`processTokensWithAnalysis`,
`src/index.js` lines 691-741) and its helpers.  Kline closes fetched per
symbol are supplied as a function from symbol to price list
(`getKlineData` returns the empty list on its own fetch failure, so the
function is total).  The `percentChange` / `volume` fields of a processed
token hold `toFixed` strings of parses the filters proved non-`NaN`;
they are stored as rationals via `JNum.toQ0`.
-/

/-- Model of `calculateMomentum(prices)` (`src/index.js` lines 628-638):
percentage move of the mean of the last five samples against the mean of
the five before them; with fewer than ten samples the older window
shortens, and with exactly five it is empty, making the older mean `0/0`
(`NaN`). -/
def calculateMomentum (prices : List ℚ) : JNum :=
  if prices.length < 5 then .num 0
  else
    let recent := prices.drop (prices.length - 5)
    let older := (prices.take (prices.length - 5)).drop (prices.length - 10)
    let recentAvg : ℚ := recent.foldl (fun a b => a + b) 0 / recent.length
    let olderAvg : JNum :=
      if older.length = 0 then .nan
      else .num (older.foldl (fun a b => a + b) 0 / older.length)
    JNum.mul (JNum.div (JNum.sub (.num recentAvg) olderAvg) olderAvg) (.num 100)

/-- Model of the second service's `detectVolumeSpike` (`src/index.js`
lines 641-643): `currentVolume > avgVolume * 2`. -/
def detectVolumeSpikeB (cur avg : JNum) : Bool :=
  JNum.lt (JNum.mul avg (.num 2)) cur

/-- A processed token of the analysis pipeline (`src/index.js` lines
718-728). -/
structure TokenB where
  symbol : String
  price : JNum
  percentChange : ℚ
  volume : ℚ
  priceChange : JNum
  rsi : ℚ
  momentum : JNum
  volumeSpike : Bool
  score : ℚ
deriving DecidableEq

/-- Model of `calculateTokenScore(token, avgVolume)` (`src/index.js`
lines 646-673): staircase points for gain, volume, volume spike,
momentum and healthy RSI, capped at 10. -/
def calculateTokenScore (t : TokenB) (avgVolume : JNum) : ℚ :=
  let gainPts : ℚ :=
    if 15 ≤ t.percentChange then 3
    else if 10 ≤ t.percentChange then 2
    else if 5 ≤ t.percentChange then 1 else 0
  let volPts : ℚ :=
    if 500000 ≤ t.volume then 2 else if 200000 ≤ t.volume then 1 else 0
  let spikePts : ℚ :=
    if JNum.lt (.num 0) avgVolume && detectVolumeSpikeB (.num t.volume) avgVolume
    then 2 else 0
  let momPts : ℚ :=
    if JNum.lt (.num 5) t.momentum then 2
    else if JNum.lt (.num 0) t.momentum then 1 else 0
  let rsiPts : ℚ := if 30 ≤ t.rsi ∧ t.rsi ≤ 70 then 1 else 0
  Min.min (gainPts + volPts + spikePts + momPts + rsiPts) 10

/-- Required-fields check of the pipeline (`src/index.js` lines
699-700): the four fields are neither `undefined` nor `null`. -/
def hasRequiredFieldsB (i : RawItem) : Bool :=
  i.symbol.isSome && i.lastPrice.isSome && i.priceChangePercent.isSome
    && i.quoteVolume.isSome

/-- Volume / gain predicate of the pipeline (`src/index.js` lines
702-706): both parses are numbers above the configured floors. -/
def volGainKeepB (mv mg : ℚ) (i : RawItem) : Bool :=
  !(parseField i.quoteVolume).isNaN
    && JNum.lt (.num mv) (parseField i.quoteVolume)
    && !(parseField i.priceChangePercent).isNaN
    && JNum.lt (.num mg) (parseField i.priceChangePercent)

/-- The three row filters of the pipeline in source order. -/
def pipeBFiltered (mv mg : ℚ) (data : List RawItem) : List RawItem :=
  ((data.filter hasRequiredFieldsB).filter symbolIsUsdt).filter (volGainKeepB mv mg)

/-- Average `quoteVolume` over the filtered rows (`src/index.js` lines
709-710); `0/0` (`NaN`) when no row survives. -/
def pipeBAvgVolume (f3 : List RawItem) : JNum :=
  JNum.div (.num (f3.foldl (fun s i => s + (parseField i.quoteVolume).toQ0) 0))
    (.num f3.length)

/-- Token construction of the pipeline loop (`src/index.js` lines
716-731), including the `score` assignment. -/
def mkTokenB (kl : String → List ℚ) (avgVolume : JNum) (i : RawItem) : TokenB :=
  let prices := kl (i.symbol.getD "")
  let t0 : TokenB :=
    { symbol := i.symbol.getD ""
      price := (parseField i.lastPrice).toFixed 8
      percentChange := qToFixed 2 (parseField i.priceChangePercent).toQ0
      volume := qToFixed 2 (parseField i.quoteVolume).toQ0
      priceChange := (parseField i.priceChange).toFixed 8
      rsi := calculateSimpleRSI prices
      momentum := calculateMomentum prices
      volumeSpike := detectVolumeSpikeB (parseField i.quoteVolume) avgVolume
      score := 0 }
  { t0 with score := calculateTokenScore t0 avgVolume }

/-- Ordering realised by the final `.sort` of the pipeline
(`src/index.js` lines 735-739): score descending, ties by percent gain
descending; tokens tied on both may keep their relative order (the
comparator returns a non-positive value). -/
def tokenRel (a b : TokenB) : Prop :=
  b.score < a.score ∨ (a.score = b.score ∧ b.percentChange ≤ a.percentChange)

instance : DecidableRel tokenRel := fun a b => by
  unfold tokenRel; infer_instance

instance : IsTotal TokenB tokenRel :=
  ⟨fun a b => by
    unfold tokenRel
    rcases lt_trichotomy a.score b.score with h | h | h
    · exact Or.inr (Or.inl h)
    · rcases le_total b.percentChange a.percentChange with hp | hp
      · exact Or.inl (Or.inr ⟨h, hp⟩)
      · exact Or.inr (Or.inr ⟨h.symm, hp⟩)
    · exact Or.inl (Or.inl h)⟩

instance : IsTrans TokenB tokenRel :=
  ⟨fun a b c hab hbc => by
    unfold tokenRel at hab hbc ⊢
    rcases hab with h1 | ⟨h1, p1⟩ <;> rcases hbc with h2 | ⟨h2, p2⟩
    · exact Or.inl (h2.trans h1)
    · exact Or.inl (lt_of_eq_of_lt h2.symm h1)
    · exact Or.inl (lt_of_lt_of_eq h2 h1.symm)
    · exact Or.inr ⟨h1.trans h2, p2.trans p1⟩⟩

/-- The stable sort of the pipeline with the comparator ordering above. -/
def sortTokensB (l : List TokenB) : List TokenB :=
  List.insertionSort tokenRel l

/-- The pipeline tail after row filtering: truncate to 50 rows, build
tokens against the average volume, sort, return the top
`TOP_COUNT = 5`. -/
def processTokensFrom (kl : String → List ℚ) (f3 : List RawItem) : List TokenB :=
  (sortTokensB ((f3.take 50).map (mkTokenB kl (pipeBAvgVolume f3)))).take 5

/-- Model of `processTokensWithAnalysis(data, minVolume, minGain)`
(`src/index.js` lines 691-741): a non-array input throws, otherwise rows
are filtered, scored, ranked and truncated. -/
def processTokensWithAnalysis (kl : String → List ℚ) (mv mg : ℚ) :
    BinanceResponse → Except String (List TokenB)
  | .notArray => .error "Invalid data format from Binance API"
  | .arr data => .ok (processTokensFrom kl (pipeBFiltered mv mg data))

/-- C4 as amended: the analysis pipeline ranks by `totalScore`
descending and breaks score ties by raw percent gain descending only;
candidates tied on both keep a relative order admitted by the comparator
(the stable sort preserves input order), there is no symbol-based
tie-break, the output is a permutation of its input, and — the ranking
being a pure function — the order is deterministic for identical input. -/
theorem c4_amended_sort_by_score_then_gain :
    (∀ l : List TokenB,
        List.Sorted tokenRel (sortTokensB l) ∧ (sortTokensB l).Perm l)
      ∧ (∀ (kl : String → List ℚ) (mv mg : ℚ) (d : BinanceResponse)
          (out : List TokenB),
        processTokensWithAnalysis kl mv mg d = .ok out →
          List.Sorted tokenRel out) := by
  constructor
  · intro l
    exact ⟨List.sorted_insertionSort tokenRel l, List.perm_insertionSort tokenRel l⟩
  · intro kl mv mg d out h
    cases d with
    | notArray => exact absurd h (by simp [processTokensWithAnalysis])
    | arr data =>
        have hout : out = processTokensFrom kl (pipeBFiltered mv mg data) := by
          have := h
          simp only [processTokensWithAnalysis, Except.ok.injEq] at this
          exact this.symm
        rw [hout, processTokensFrom]
        exact List.Pairwise.sublist (List.take_sublist 5 _)
          (List.sorted_insertionSort tokenRel _)

/-- Witness for C4 (amended) on the empty pipeline run. -/
theorem c4_amended_sort_by_score_then_gain_witness :
    processTokensWithAnalysis (fun _ => []) 0 0 (.arr []) = .ok []
      ∧ List.Sorted tokenRel [] :=
  ⟨rfl, c4_amended_sort_by_score_then_gain.2 (fun _ => []) 0 0 (.arr []) [] rfl⟩

/-- Raw item with symbol BBBUSDT used by the C4 counterexample. -/
def itemBBB : RawItem :=
  { symbol := some "BBBUSDT", lastPrice := some (.num 1)
    priceChangePercent := some (.num 10), quoteVolume := some (.num 300000)
    priceChange := some (.num 0) }

/-- Raw item identical to `itemBBB` except for the symbol AAAUSDT. -/
def itemAAA : RawItem :=
  { symbol := some "AAAUSDT", lastPrice := some (.num 1)
    priceChangePercent := some (.num 10), quoteVolume := some (.num 300000)
    priceChange := some (.num 0) }

/-- Counterexample to C4: two candidates with equal `totalScore` (both
score 4) and equal raw percent gain (both 10) are returned by the
pipeline in their input order (BBBUSDT before AAAUSDT), not in ascending
lexical symbol order, so the claimed symbol tie-break does not exist. -/
theorem c4_counterexample_no_symbol_tiebreak :
    Except.map (List.map (fun t : TokenB => (t.symbol, t.score, t.percentChange)))
        (processTokensWithAnalysis (fun _ => []) 100000 8 (.arr [itemBBB, itemAAA]))
        = .ok [("BBBUSDT", 4, 10), ("AAAUSDT", 4, 10)]
      ∧ "AAAUSDT".data < "BBBUSDT".data := by
  constructor
  · have hreq : hasRequiredFieldsB itemBBB = true := by decide
    have hreq2 : hasRequiredFieldsB itemAAA = true := by decide
    have hsym : symbolIsUsdt itemBBB = true := by decide
    have hsym2 : symbolIsUsdt itemAAA = true := by decide
    have hvg : volGainKeepB 100000 8 itemBBB = true := by
      norm_num [volGainKeepB, itemBBB, parseField, JNum.isNaN, JNum.lt]
    have hvg2 : volGainKeepB 100000 8 itemAAA = true := by
      norm_num [volGainKeepB, itemAAA, parseField, JNum.isNaN, JNum.lt]
    have hfil : pipeBFiltered 100000 8 [itemBBB, itemAAA] = [itemBBB, itemAAA] := by
      simp [pipeBFiltered, List.filter, hreq, hreq2, hsym, hsym2, hvg, hvg2]
    have havg : pipeBAvgVolume [itemBBB, itemAAA] = .num 300000 := by
      norm_num [pipeBAvgVolume, itemBBB, itemAAA, parseField, JNum.toQ0, JNum.div]
    simp only [processTokensWithAnalysis, hfil, havg, processTokensFrom]
    norm_num [mkTokenB, itemBBB, itemAAA, parseField, qToFixed, JNum.toQ0,
      JNum.toFixed, calculateSimpleRSI, calculateMomentum, detectVolumeSpikeB,
      JNum.lt, JNum.mul, calculateTokenScore, sortTokensB, List.insertionSort,
      List.orderedInsert, tokenRel, Except.map]
  · decide

/-!
Row-rejection policy.  The composed keep-predicates below are the
filter chains of the two pipelines collapsed into one predicate per
pipeline, used to reason about the removal of a single malformed row.
-/

/-- The rows `processGainersData` keeps, as one predicate: the four
required fields present, USDT suffix, parsed volume a number above the
floor, and re-parsed percent change a number above the gain floor. -/
def gainersKeep (i : RawItem) : Bool :=
  gainersPctKeep (toOutRec i)
    && (gainersVolumeKeep i && symbolIsUsdt i && validateBinanceData i)

lemma processGainersList_eq (data : List RawItem) :
    processGainersList data
      = (((data.filter gainersKeep).map toOutRec).insertionSort outRecBefore).take 10 := by
  unfold processGainersList gainersKeep
  rw [List.filter_filter, List.filter_filter, List.filter_map, List.filter_filter]
  rfl

/-- The rows `processTokensWithAnalysis` keeps, as one predicate. -/
def pipeBKeep (mv mg : ℚ) (i : RawItem) : Bool :=
  volGainKeepB mv mg i && symbolIsUsdt i && hasRequiredFieldsB i

lemma pipeBFiltered_eq (mv mg : ℚ) (data : List RawItem) :
    pipeBFiltered mv mg data = data.filter (pipeBKeep mv mg) := by
  unfold pipeBFiltered pipeBKeep
  rw [List.filter_filter, List.filter_filter]

/-- A malformed row in the sense of the propagation-policy claim: a
required field is missing, the symbol lacks the USDT suffix, or the
`quoteVolume` / `priceChangePercent` field fails numeric parsing. -/
def isMalformedRow (i : RawItem) : Prop :=
  i.symbol = none ∨ i.lastPrice = none ∨ i.priceChangePercent = none
    ∨ i.quoteVolume = none ∨ symbolIsUsdt i = false
    ∨ parseField i.quoteVolume = .nan ∨ parseField i.priceChangePercent = .nan

instance : DecidablePred isMalformedRow := fun i => by
  unfold isMalformedRow; infer_instance

lemma gainersKeep_malformed {i : RawItem} (h : isMalformedRow i) :
    gainersKeep i = false := by
  rcases h with h | h | h | h | h | h | h
  · simp [gainersKeep, validateBinanceData, h]
  · simp [gainersKeep, validateBinanceData, h]
  · simp [gainersKeep, validateBinanceData, h]
  · simp [gainersKeep, validateBinanceData, h]
  · simp [gainersKeep, h]
  · simp [gainersKeep, gainersVolumeKeep, h, JNum.isNaN]
  · simp [gainersKeep, gainersPctKeep, toOutRec, h, JNum.toFixed, JNum.isNaN]

lemma pipeBKeep_malformed (mv mg : ℚ) {i : RawItem} (h : isMalformedRow i) :
    pipeBKeep mv mg i = false := by
  rcases h with h | h | h | h | h | h | h
  · simp [pipeBKeep, hasRequiredFieldsB, h]
  · simp [pipeBKeep, hasRequiredFieldsB, h]
  · simp [pipeBKeep, hasRequiredFieldsB, h]
  · simp [pipeBKeep, hasRequiredFieldsB, h]
  · simp [pipeBKeep, h]
  · simp [pipeBKeep, volGainKeepB, h, JNum.isNaN]
  · simp [pipeBKeep, volGainKeepB, h, JNum.isNaN]

/-- C8 as amended: a record missing one of the four required fields,
lacking the USDT suffix, or whose `quoteVolume` or `priceChangePercent`
fails numeric parsing, is dropped by both pipelines without disturbing
the processing of the remaining records; an input that is not an array
aborts either pipeline with the propagated format error.  (A record
whose `lastPrice` fails numeric parsing is NOT dropped — the
counterexample below.) -/
theorem c8_amended_row_drop_and_format_abort :
    (processGainersData .notArray = .error "Invalid data format from Binance API"
      ∧ ∀ (kl : String → List ℚ) (mv mg : ℚ),
        processTokensWithAnalysis kl mv mg .notArray
          = .error "Invalid data format from Binance API")
      ∧ (∀ (pre post : List RawItem) (bad : RawItem), isMalformedRow bad →
        processGainersData (.arr (pre ++ bad :: post))
            = processGainersData (.arr (pre ++ post))
          ∧ ∀ (kl : String → List ℚ) (mv mg : ℚ),
            processTokensWithAnalysis kl mv mg (.arr (pre ++ bad :: post))
              = processTokensWithAnalysis kl mv mg (.arr (pre ++ post))) := by
  refine ⟨⟨rfl, fun kl mv mg => rfl⟩, fun pre post bad hbad => ⟨?_, ?_⟩⟩
  · have hfil : (pre ++ bad :: post).filter gainersKeep
        = (pre ++ post).filter gainersKeep := by
      simp [List.filter_append, List.filter_cons, gainersKeep_malformed hbad]
    simp only [processGainersData, processGainersList_eq, hfil]
  · intro kl mv mg
    have hfil : pipeBFiltered mv mg (pre ++ bad :: post)
        = pipeBFiltered mv mg (pre ++ post) := by
      rw [pipeBFiltered_eq, pipeBFiltered_eq]
      simp [List.filter_append, List.filter_cons, pipeBKeep_malformed mv mg hbad]
    simp only [processTokensWithAnalysis, hfil]

/-- Raw item missing its `quoteVolume` field. -/
def itemNoVolume : RawItem :=
  { symbol := some "XUSDT", lastPrice := some (.num 1)
    priceChangePercent := some (.num 9), quoteVolume := none
    priceChange := none }

/-- Witness for C8 (amended): dropping the record that lacks
`quoteVolume` leaves both pipelines with the result of the remaining
input. -/
theorem c8_amended_row_drop_and_format_abort_witness :
    isMalformedRow itemNoVolume
      ∧ processGainersData (.arr [itemBBB, itemNoVolume])
          = processGainersData (.arr [itemBBB])
      ∧ processTokensWithAnalysis (fun _ => []) 50000 5 (.arr [itemBBB, itemNoVolume])
          = processTokensWithAnalysis (fun _ => []) 50000 5 (.arr [itemBBB]) :=
  ⟨by decide,
    (c8_amended_row_drop_and_format_abort.2 [itemBBB] [] itemNoVolume (by decide)).1,
    (c8_amended_row_drop_and_format_abort.2 [itemBBB] [] itemNoVolume (by decide)).2
      (fun _ => []) 50000 5⟩

/-- Raw item whose `lastPrice` is a non-numeric string (its parse is
`NaN`); every other field is well formed. -/
def itemBadPrice : RawItem :=
  { symbol := some "AUSDT", lastPrice := some .nan
    priceChangePercent := some (.num 10), quoteVolume := some (.num 100000)
    priceChange := some (.num 0) }

/-- Counterexample to C8: a record whose `lastPrice` fails numeric
parsing is NOT dropped by `processGainersData` — it survives into the
output with a `NaN` price field. -/
theorem c8_counterexample_bad_lastPrice_kept :
    processGainersData (.arr [itemBadPrice])
        = .ok [{ symbol := "AUSDT", price := .nan, percentChange := .num 10
                 volume := .num 100000, priceChange := .num 0 }]
      ∧ (parseField itemBadPrice.lastPrice).isNaN = true := by
  constructor
  · have hval : validateBinanceData itemBadPrice = true := by decide
    have hsym : symbolIsUsdt itemBadPrice = true := by decide
    have hvol : gainersVolumeKeep itemBadPrice = true := by
      norm_num [gainersVolumeKeep, itemBadPrice, parseField, JNum.isNaN, JNum.lt]
    simp only [processGainersData, processGainersList, Except.ok.injEq]
    norm_num [List.filter, hval, hsym, hvol, toOutRec, itemBadPrice, parseField,
      JNum.toFixed, qToFixed, gainersPctKeep, JNum.isNaN, JNum.lt,
      List.insertionSort, List.orderedInsert]
  · rfl
